import Mathlib

/-!
Shallow embedding of the quiz session controller implemented in
`Assignment 3/static/js/quiz.js`.

The script keeps six module-level globals (`questions`, `currentIndex`,
`score`, `startTime`, `breakdown`, `username`); we gather them into a
`SessionState` record and turn each event handler into an explicit state
transformer.  DOM reads/writes are modelled only insofar as they carry
session-relevant information: the rendered question (`RenderedQuestion`),
the intro-error text, the `alert` message of the catch-all handler in
`loadQuestions`, and the result summary computed by `finishQuiz`.

JavaScript evaluation details that matter to the claims are modelled
explicitly:
* reading a property of `undefined` (e.g. `questions[currentIndex]` out of
  range) throws a `TypeError`; fallible steps therefore return `Except`;
* number arithmetic is embedded into `Rat` extended with `NaN`/`Infinity`
  (`JsNum`), since `score / questions.length` divides unconditionally;
* `Math.round` rounds half toward positive infinity;
* `x.toFixed(1)` renders one decimal digit (its rounding modelled for the
  nonnegative values that occur here).
-/

/-- One entry of a question's `options` array: `{label, text}`. -/
structure QOption where
  label : String
  text : String
deriving Repr, DecidableEq

/-- A question object as delivered by `/api/questions`. -/
structure Question where
  id : Nat
  question : String
  options : List QOption
  correct_label : String
  explanation : String
deriving Repr, DecidableEq

/-- One element of the `breakdown` array pushed by `handleAnswer`. -/
structure AnswerRecord where
  questionId : Nat
  question : String
  selectedLabel : String
  correctLabel : String
  correct : Bool
  explanation : String
deriving Repr, DecidableEq

/-- The six module-level globals of `quiz.js`.  `startTime` is `null`
before the first successful load, modelled as `Option Int` (milliseconds,
as from `Date.now()`). -/
structure SessionState where
  questions : List Question
  currentIndex : Nat
  score : Nat
  startTime : Option Int
  breakdown : List AnswerRecord
  username : String
deriving Repr, DecidableEq

/-- The initial values of the globals at script load. -/
def initState : SessionState :=
  { questions := [], currentIndex := 0, score := 0, startTime := none,
    breakdown := [], username := "" }

/-- The payload of the question provider `/api/questions`:
`{status, questions, message?}`. -/
structure ProviderResponse where
  status : String
  questions : List Question
  message : Option String
deriving Repr, DecidableEq

/-- JavaScript numbers as far as this script exercises them: rationals
extended with the IEEE special values produced by dividing by zero. -/
inductive JsNum where
  | num (q : Rat)
  | nan
  | inf
  | ninf
deriving Repr, DecidableEq

/-- JavaScript division on nonnegative integers (`score / questions.length`):
`0/0` is `NaN`, `n/0` with `n > 0` is `Infinity`, otherwise exact. -/
def jsDivNat (a b : Nat) : JsNum :=
  if b = 0 then (if a = 0 then JsNum.nan else JsNum.inf)
  else JsNum.num ((a : Rat) / (b : Rat))

/-- Multiplication by the positive constant 100 (`(...) * 100`). -/
def jsMul100 : JsNum → JsNum
  | JsNum.num q => JsNum.num (q * 100)
  | JsNum.nan => JsNum.nan
  | JsNum.inf => JsNum.inf
  | JsNum.ninf => JsNum.ninf

/-- `Math.round`: round half toward positive infinity. -/
def jsRound (q : Rat) : Int := Int.floor (q + 1 / 2)

/-- `x.toFixed(1)` for a nonnegative rational: one decimal digit,
rounding to nearest. -/
def ratToFixed1 (q : Rat) : String :=
  let n : Int := Int.floor (q * 10 + 1 / 2)
  toString (n / 10) ++ "." ++ toString (n % 10)

/-- `x.toFixed(1)` on the embedded number type; the special values render
as their JavaScript string forms and do not throw. -/
def jsToFixed1 : JsNum → String
  | JsNum.num q => ratToFixed1 q
  | JsNum.nan => "NaN"
  | JsNum.inf => "Infinity"
  | JsNum.ninf => "-Infinity"

/-- JavaScript `String.prototype.trim()`: drop whitespace from both ends
(written on the character list so that it evaluates by reduction). -/
def jsTrim (s : String) : String :=
  ⟨((s.data.dropWhile Char.isWhitespace).reverse.dropWhile
      Char.isWhitespace).reverse⟩

/-- What `showQuestion` writes into the DOM: the progress line, the
question text, and one option button per entry of `q.options` (each
button carries `opt.label` in `dataset.label` and invokes
`handleAnswer(btn, opt.label)` on click). -/
structure RenderedQuestion where
  progressText : String
  questionText : String
  buttons : List QOption
deriving Repr, DecidableEq

/-- `showQuestion()`.  It reads `questions[currentIndex]` and immediately
dereferences it (`q.question`); when the index is out of range the read
yields `undefined` and the dereference throws a `TypeError`, modelled as
`Except.error`. -/
def showQuestion (st : SessionState) : Except String RenderedQuestion :=
  match st.questions[st.currentIndex]? with
  | none => Except.error "TypeError: cannot read question of undefined"
  | some q =>
      Except.ok
        { progressText := "Question " ++ toString (st.currentIndex + 1) ++
            " of " ++ toString st.questions.length,
          questionText := q.question,
          buttons := q.options }

/-- The object pushed onto `breakdown` by `handleAnswer`. -/
def mkAnswerRecord (q : Question) (selectedLabel : String) : AnswerRecord :=
  { questionId := q.id, question := q.question,
    selectedLabel := selectedLabel, correctLabel := q.correct_label,
    correct := selectedLabel == q.correct_label,
    explanation := q.explanation }

/-- `handleAnswer(clickedButton, selectedLabel)`, state part.  It reads
`questions[currentIndex]` and dereferences `q.correct_label` (a
`TypeError` when out of range, before any mutation), pushes an
`AnswerRecord` unconditionally — there is no check that `selectedLabel`
occurs among `q.options` — and increments `score` exactly when
`selectedLabel === q.correct_label`. -/
def handleAnswer (st : SessionState) (selectedLabel : String) :
    Except String SessionState :=
  match st.questions[st.currentIndex]? with
  | none => Except.error "TypeError: cannot read correct_label of undefined"
  | some q =>
      let correct := selectedLabel == q.correct_label
      let st1 := { st with
        breakdown := st.breakdown ++ [mkAnswerRecord q selectedLabel] }
      Except.ok (if correct then { st1 with score := st1.score + 1 } else st1)

/-- The option labels for which `showQuestion` created buttons, hence the
only labels a click can deliver to `handleAnswer` while they are enabled. -/
def currentOptionLabels (st : SessionState) : List String :=
  (st.questions[st.currentIndex]?).elim [] (fun q => q.options.map QOption.label)

/-- The POST body sent to `/api/score` by `finishQuiz`. -/
structure ScorePayload where
  username : String
  correct : Nat
  total : Nat
  timeTaken : Int
  breakdown : List AnswerRecord
deriving Repr, DecidableEq

/-- Everything `finishQuiz` computes and displays. -/
structure FinishResult where
  timeTakenSec : Int
  percentNum : JsNum
  percentText : String
  finalScoreText : String
  missed : List AnswerRecord
  payload : ScorePayload
deriving Repr, DecidableEq

/-- `finishQuiz()`: elapsed seconds via `Math.round((endTime - startTime)
/ 1000)` (JavaScript coerces a `null` `startTime` to 0), percentage via
`((score / questions.length) * 100).toFixed(1)` — the division is
unconditional — and the review list via `breakdown.filter(b => !b.correct)`.
It mutates none of the globals; the POST to `/api/score` is fire-and-forget. -/
def finishQuiz (st : SessionState) (endTime : Int) : FinishResult :=
  let timeTakenSec : Int :=
    jsRound (((endTime - (st.startTime.getD 0) : Int) : Rat) / 1000)
  let percentNum := jsMul100 (jsDivNat st.score st.questions.length)
  let percent := jsToFixed1 percentNum
  let missed := st.breakdown.filter (fun b => !b.correct)
  let payload : ScorePayload :=
    { username := st.username, correct := st.score,
      total := st.questions.length, timeTaken := timeTakenSec,
      breakdown := st.breakdown }
  { timeTakenSec := timeTakenSec,
    percentNum := percentNum,
    percentText := percent,
    finalScoreText := st.username ++ ", your final score: " ++
      toString st.score ++ "/" ++ toString st.questions.length ++
      " (" ++ percent ++ "%)",
    missed := missed,
    payload := payload }

/-- The session phases of the spec's state machine.  `Loading` is not a
separate value because the fetch is awaited inside the start handler, so
each start event carries its provider response atomically.  `Crashed`
models the condition reached when `showQuestion` throws inside
`loadQuestions`' `try` block after the screens were already switched: the
quiz screen shows but no option buttons exist. -/
inductive Phase where
  | Idle
  | Active
  | Answered
  | Crashed
  | Finished
deriving Repr, DecidableEq

deriving instance DecidableEq for Except

/-- A session: the globals plus the phase implicit in the DOM, the
`intro-error` text, the message of the last `alert` raised by the current
event (if any), and the summary computed by `finishQuiz` (once finished). -/
structure Session where
  phase : Phase
  st : SessionState
  introError : String
  alertMsg : Option String
  summary : Option FinishResult
deriving Repr, DecidableEq

/-- The page as loaded: intro screen visible, globals at their initial
values. -/
def initSession : Session :=
  { phase := Phase.Idle, st := initState, introError := "",
    alertMsg := none, summary := none }

/-- The discrete external triggers.  A start click carries the provider
response the awaited fetch will produce (`Except.error` = network
failure) and the current time; a next click carries the current time used
by `finishQuiz`. -/
inductive Event where
  | start (input : String) (resp : Except String ProviderResponse) (now : Int)
  | answer (label : String)
  | next (now : Int)
deriving Repr, DecidableEq

/-- `loadQuestions()`.  On fetch failure or `data.status !== "ok"` it
throws before touching any global, and the catch block alerts.  On
success it resets the globals, switches screens, and calls
`showQuestion()`; if that throws (empty `questions`), the catch block
alerts, but the globals stay reset and the screens stay switched. -/
def loadQuestions (s : Session) (resp : Except String ProviderResponse)
    (now : Int) : Session :=
  match resp with
  | Except.error e =>
      { s with alertMsg := some ("Error loading questions: " ++ e) }
  | Except.ok data =>
      if data.status ≠ "ok" then
        let m := data.message.getD "Failed to load questions"
        { s with alertMsg := some ("Error loading questions: " ++ m) }
      else
        let st1 : SessionState :=
          { questions := data.questions, currentIndex := 0, score := 0,
            breakdown := [], startTime := some now,
            username := s.st.username }
        match showQuestion st1 with
        | Except.ok _ => { s with st := st1, phase := Phase.Active }
        | Except.error e =>
            { s with st := st1, phase := Phase.Crashed,
                     alertMsg := some ("Error loading questions: " ++ e) }

/-- The `start-btn` click handler.  Note the order in the source: the
global `username` is assigned the trimmed input BEFORE the emptiness
check, so a rejected start still overwrites `username`. -/
def startClick (s : Session) (input : String)
    (resp : Except String ProviderResponse) (now : Int) : Session :=
  let uname := jsTrim input
  let s1 := { s with st := { s.st with username := uname } }
  if uname = "" then
    { s1 with introError := "Please enter your name to start." }
  else
    loadQuestions { s1 with introError := "" } resp now

/-- One step of the event-driven machine.  Guards encode which DOM
elements can deliver the event: the start button only exists on the intro
screen (phase `Idle`); answer clicks only come from the option buttons
`showQuestion` created — one per option label, disabled once answered —
so they only act in `Active` and only for labels of the current question;
the next button acts on the quiz screen after an answer (`Answered`). -/
def step (s : Session) (e : Event) : Session :=
  match e with
  | Event.start input resp now =>
      match s.phase with
      | Phase.Idle => startClick { s with alertMsg := none } input resp now
      | _ => s
  | Event.answer label =>
      match s.phase with
      | Phase.Active =>
          if (currentOptionLabels s.st).contains label then
            match handleAnswer s.st label with
            | Except.ok st1 =>
                { s with st := st1, phase := Phase.Answered, alertMsg := none }
            | Except.error _ => s
          else s
      | _ => s
  | Event.next now =>
      match s.phase with
      | Phase.Answered =>
          if (s.st.currentIndex : Int) < (s.st.questions.length : Int) - 1 then
            let st1 := { s.st with currentIndex := s.st.currentIndex + 1 }
            match showQuestion st1 with
            | Except.ok _ =>
                { s with st := st1, phase := Phase.Active, alertMsg := none }
            | Except.error _ =>
                { s with st := st1, phase := Phase.Crashed, alertMsg := none }
          else
            { s with phase := Phase.Finished, alertMsg := none,
                     summary := some (finishQuiz s.st now) }
      | _ => s

/-- Running the machine from page load through a list of events. -/
def run (es : List Event) : Session := es.foldl step initSession

/-- A session is reachable when some event sequence produces it. -/
def Reachable (s : Session) : Prop := ∃ es : List Event, s = run es

/-- `score` as the spec counts it: the number of breakdown records with
`correct = true`. -/
def countCorrect (breakdown : List AnswerRecord) : Nat :=
  (breakdown.filter (fun b => b.correct)).length

/-- The phase-indexed fragment of the reachability invariant.  While a
question is on screen the index is in range and every earlier question
has exactly one record; once it is answered the current one has one too. -/
def phaseInv (s : Session) : Prop :=
  match s.phase with
  | Phase.Idle => s.st.questions = [] ∧ s.st.currentIndex = 0 ∧
      s.st.score = 0 ∧ s.st.breakdown = []
  | Phase.Active => s.st.currentIndex < s.st.questions.length ∧
      s.st.breakdown.length = s.st.currentIndex
  | Phase.Answered => s.st.currentIndex < s.st.questions.length ∧
      s.st.breakdown.length = s.st.currentIndex + 1
  | Phase.Crashed => True
  | Phase.Finished => True

/-- The reachability invariant: the score counts the correct records, the
records never outnumber the questions, record `i` belongs to question
`i`, and the phase-specific bookkeeping holds. -/
def SessionInv (s : Session) : Prop :=
  s.st.score = countCorrect s.st.breakdown ∧
  s.st.breakdown.length ≤ s.st.questions.length ∧
  s.st.breakdown.map AnswerRecord.questionId =
    (s.st.questions.take s.st.breakdown.length).map Question.id ∧
  phaseInv s

/-- The fetch failed, or the payload's `status` is not `"ok"`: the two
conditions under which `loadQuestions` throws before touching any global. -/
def isBadResp : Except String ProviderResponse → Bool
  | Except.error _ => true
  | Except.ok d => d.status != "ok"

/-- A well-formed provider response carrying at least one question. -/
def isGoodNonempty : Except String ProviderResponse → Bool
  | Except.ok d => d.status == "ok" && !d.questions.isEmpty
  | Except.error _ => false

/-- The question list carried by a provider response. -/
def respQuestions : Except String ProviderResponse → List Question
  | Except.ok d => d.questions
  | Except.error _ => []

/-- The five `SessionState` components §7 requires a failed operation to
leave untouched (the spec's list for `LoadError` omits `username`). -/
def coreUnchanged (a b : SessionState) : Prop :=
  a.questions = b.questions ∧ a.currentIndex = b.currentIndex ∧
  a.score = b.score ∧ a.breakdown = b.breakdown ∧
  a.startTime = b.startTime

/-- Concrete fixtures: the two-question set of §8's round-trip property. -/
def demoQ1 : Question :=
  { id := 1, question := "Q1?", options := [⟨"a", "alpha"⟩, ⟨"b", "beta"⟩],
    correct_label := "a", explanation := "E1" }

def demoQ2 : Question :=
  { id := 2, question := "Q2?", options := [⟨"a", "alpha"⟩, ⟨"b", "beta"⟩],
    correct_label := "b", explanation := "E2" }

def demoResp : ProviderResponse :=
  { status := "ok", questions := [demoQ1, demoQ2], message := none }

/-- A successful response whose question list is empty. -/
def emptyOkResp : ProviderResponse :=
  { status := "ok", questions := [], message := none }

/-- Start a session with the two demo questions. -/
def demoStartEvents : List Event :=
  [Event.start "ann" (Except.ok demoResp) 1000]

/-- §8's second round-trip: answer "b" then "a", both wrong. -/
def demoWrongEvents : List Event :=
  [Event.start "ann" (Except.ok demoResp) 1000, Event.answer "b",
   Event.next 2000, Event.answer "a"]

/-- The same run taken through the final next click. -/
def demoWrongFullEvents : List Event :=
  demoWrongEvents ++ [Event.next 61000]

/-- A failed start attempt by user "alice" (network down). -/
def c4PriorEvents : List Event :=
  [Event.start "alice" (Except.error "network down") 0]

/-- A start that succeeds with zero questions. -/
def c5Events : List Event :=
  [Event.start "bob" (Except.ok emptyOkResp) 100]

theorem showQuestion_ok_of_lt (st : SessionState)
    (h : st.currentIndex < st.questions.length) :
    ∃ rq, showQuestion st = Except.ok rq := by
  unfold showQuestion
  rw [List.getElem?_eq_getElem h]
  exact ⟨_, rfl⟩

theorem lt_of_showQuestion_ok (st : SessionState) (rq : RenderedQuestion)
    (h : showQuestion st = Except.ok rq) :
    st.currentIndex < st.questions.length := by
  unfold showQuestion at h
  cases hq : st.questions[st.currentIndex]? with
  | none => rw [hq] at h; cases h
  | some q => exact (List.getElem?_eq_some.mp hq).1

/-- `handleAnswer`, written as the single state update it performs. -/
theorem handleAnswer_eq (st : SessionState) (q : Question) (label : String)
    (hq : st.questions[st.currentIndex]? = some q) :
    handleAnswer st label = Except.ok
      { st with breakdown := st.breakdown ++ [mkAnswerRecord q label],
                score := st.score +
                  (if label == q.correct_label then 1 else 0) } := by
  unfold handleAnswer
  rw [hq]
  cases st with
  | mk questions currentIndex score startTime breakdown username =>
      by_cases h : (label == q.correct_label) = true
      · simp [h]
      · simp at h
        simp [h]

theorem countCorrect_append (b : List AnswerRecord) (r : AnswerRecord) :
    countCorrect (b ++ [r]) =
      countCorrect b + (if r.correct then 1 else 0) := by
  unfold countCorrect
  rw [List.filter_append, List.length_append]
  cases hr : r.correct <;> simp [hr]

theorem inv_initSession : SessionInv initSession := by
  refine ⟨rfl, by simp [initSession, initState], by simp [initSession, initState], ?_⟩
  simp [phaseInv, initSession, initState]

theorem inv_step (s : Session) (e : Event) (h : SessionInv s) :
    SessionInv (step s e) := by
  obtain ⟨ph, st, ie, am, su⟩ := s
  obtain ⟨hscore, hlen, hmap, hph⟩ := h
  cases e with
  | start input resp now =>
      cases ph with
      | Active => exact ⟨hscore, hlen, hmap, hph⟩
      | Answered => exact ⟨hscore, hlen, hmap, hph⟩
      | Crashed => exact ⟨hscore, hlen, hmap, hph⟩
      | Finished => exact ⟨hscore, hlen, hmap, hph⟩
      | Idle =>
          simp only [phaseInv] at hph
          obtain ⟨hq0, hi0, hs0, hb0⟩ := hph
          show SessionInv
            (startClick ⟨Phase.Idle, st, ie, none, su⟩ input resp now)
          unfold startClick loadQuestions
          by_cases hu : jsTrim input = ""
          · simp only [if_pos hu]
            exact ⟨hscore, hlen, hmap, ⟨hq0, hi0, hs0, hb0⟩⟩
          · simp only [if_neg hu]
            cases resp with
            | error e1 => exact ⟨hscore, hlen, hmap, ⟨hq0, hi0, hs0, hb0⟩⟩
            | ok data =>
                by_cases hok : data.status = "ok"
                · simp only [hok, ne_eq, not_true_eq_false, if_false]
                  split
                  · rename_i rq hsq
                    refine ⟨rfl, by simp, by simp, ?_⟩
                    have hlt0 := lt_of_showQuestion_ok _ _ hsq
                    exact ⟨hlt0, rfl⟩
                  · exact ⟨rfl, by simp, by simp, trivial⟩
                · simp only [if_pos hok]
                  exact ⟨hscore, hlen, hmap, ⟨hq0, hi0, hs0, hb0⟩⟩
  | answer label =>
      cases ph with
      | Idle => exact ⟨hscore, hlen, hmap, hph⟩
      | Answered => exact ⟨hscore, hlen, hmap, hph⟩
      | Crashed => exact ⟨hscore, hlen, hmap, hph⟩
      | Finished => exact ⟨hscore, hlen, hmap, hph⟩
      | Active =>
          simp only [phaseInv] at hph
          obtain ⟨hlt, hblen⟩ := hph
          show SessionInv
            (if (currentOptionLabels st).contains label then
              match handleAnswer st label with
              | Except.ok st1 =>
                  ⟨Phase.Answered, st1, ie, none, su⟩
              | Except.error _ => ⟨Phase.Active, st, ie, am, su⟩
            else ⟨Phase.Active, st, ie, am, su⟩)
          by_cases hc : (currentOptionLabels st).contains label = true
          · rw [if_pos hc]
            have hq : st.questions[st.currentIndex]? =
                some st.questions[st.currentIndex] :=
              List.getElem?_eq_getElem hlt
            rw [handleAnswer_eq st st.questions[st.currentIndex] label hq]
            refine ⟨?_, ?_, ?_, ?_⟩
            · show st.score + _ = countCorrect (st.breakdown ++ [_])
              rw [countCorrect_append, ← hscore]
              simp [mkAnswerRecord]
            · show (st.breakdown ++ [_]).length ≤ st.questions.length
              simp only [List.length_append, List.length_cons,
                List.length_nil]
              omega
            · show (st.breakdown ++ [_]).map AnswerRecord.questionId =
                (st.questions.take (st.breakdown ++ [_]).length).map
                  Question.id
              have htake : st.questions.take (st.breakdown.length + 1) =
                  st.questions.take st.breakdown.length ++
                    [st.questions[st.currentIndex]] := by
                rw [List.take_succ, hblen, hq]
                simp
              simp only [List.length_append, List.length_cons,
                List.length_nil, List.map_append, htake]
              rw [hmap]
              simp [mkAnswerRecord]
            · refine ⟨hlt, ?_⟩
              show (st.breakdown ++ [_]).length = st.currentIndex + 1
              simp [hblen]
          · rw [if_neg (by simpa using hc)]
            exact ⟨hscore, hlen, hmap, ⟨hlt, hblen⟩⟩
  | next now =>
      cases ph with
      | Idle => exact ⟨hscore, hlen, hmap, hph⟩
      | Active => exact ⟨hscore, hlen, hmap, hph⟩
      | Crashed => exact ⟨hscore, hlen, hmap, hph⟩
      | Finished => exact ⟨hscore, hlen, hmap, hph⟩
      | Answered =>
          simp only [phaseInv] at hph
          obtain ⟨hlt, hblen⟩ := hph
          show SessionInv
            (if (st.currentIndex : Int) < (st.questions.length : Int) - 1 then
              match showQuestion { st with currentIndex := st.currentIndex + 1 } with
              | Except.ok _ =>
                  ⟨Phase.Active, { st with currentIndex := st.currentIndex + 1 },
                    ie, none, su⟩
              | Except.error _ =>
                  ⟨Phase.Crashed, { st with currentIndex := st.currentIndex + 1 },
                    ie, none, su⟩
            else
              ⟨Phase.Finished, st, ie, none,
                some (finishQuiz st now)⟩)
          by_cases hc : (st.currentIndex : Int) < (st.questions.length : Int) - 1
          · rw [if_pos hc]
            have hlt1 : st.currentIndex + 1 < st.questions.length := by omega
            split
            · exact ⟨hscore, hlen, hmap, ⟨hlt1, by simp [hblen]⟩⟩
            · exact ⟨hscore, hlen, hmap, trivial⟩
          · rw [if_neg hc]
            exact ⟨hscore, hlen, hmap, trivial⟩

theorem inv_run (es : List Event) : SessionInv (run es) := by
  unfold run
  have hall : ∀ s, SessionInv s → SessionInv (List.foldl step s es) := by
    induction es with
    | nil => intro s hs; exact hs
    | cons e tl ih => intro s hs; exact ih _ (inv_step s e hs)
  exact hall initSession inv_initSession

theorem inv_reachable (s : Session) (h : Reachable s) : SessionInv s := by
  obtain ⟨es, rfl⟩ := h
  exact inv_run es

/-- C2: in every reachable session, after every `submitAnswer` event the
score equals the number of breakdown records with `correct = true`. -/
theorem c2_score_counts_correct (s : Session) (label : String)
    (h : Reachable s) :
    (step s (Event.answer label)).st.score =
      countCorrect (step s (Event.answer label)).st.breakdown :=
  (inv_step s (Event.answer label) (inv_reachable s h)).1

/-- C2 witness: the invariant, checked after the second (wrong) answer of
the demo run. -/
theorem c2_witness :
    Reachable (run demoWrongEvents) ∧
    (step (run demoWrongEvents) (Event.answer "a")).st.score =
      countCorrect (step (run demoWrongEvents) (Event.answer "a")).st.breakdown :=
  ⟨⟨demoWrongEvents, rfl⟩,
    c2_score_counts_correct (run demoWrongEvents) "a" ⟨demoWrongEvents, rfl⟩⟩

/-- C9: in every reachable session the breakdown never outnumbers the
questions, record `i` is the unique record of question `i` (so an
answered question has exactly one record), and an answer click on an
already-answered question is rejected without side effects (the option
buttons are disabled in `Answered`). -/
theorem c9_breakdown_bounded (s : Session) (label : String)
    (h : Reachable s) :
    s.st.breakdown.length ≤ s.st.questions.length ∧
    s.st.breakdown.map AnswerRecord.questionId =
      (s.st.questions.take s.st.breakdown.length).map Question.id ∧
    (s.phase = Phase.Answered → step s (Event.answer label) = s) := by
  obtain ⟨hscore, hlen, hmap, hph⟩ := inv_reachable s h
  refine ⟨hlen, hmap, ?_⟩
  intro hph2
  obtain ⟨ph, st, ie, am, su⟩ := s
  simp only at hph2
  subst hph2
  rfl

/-- C9 witness: checked on the demo run after both questions were
answered. -/
theorem c9_witness :
    Reachable (run demoWrongEvents) ∧
    ((run demoWrongEvents).st.breakdown.length ≤
        (run demoWrongEvents).st.questions.length ∧
      (run demoWrongEvents).st.breakdown.map AnswerRecord.questionId =
        ((run demoWrongEvents).st.questions.take
          (run demoWrongEvents).st.breakdown.length).map Question.id ∧
      ((run demoWrongEvents).phase = Phase.Answered →
        step (run demoWrongEvents) (Event.answer "b") = run demoWrongEvents)) :=
  ⟨⟨demoWrongEvents, rfl⟩,
    c9_breakdown_bounded (run demoWrongEvents) "b" ⟨demoWrongEvents, rfl⟩⟩

/-- C10: `handleAnswer` leaves `questions`, `currentIndex`, `startTime`
and `username` untouched; its only mutations are appending exactly one
record to `breakdown` and adding 1 to `score` exactly when the selected
label equals `correct_label`. -/
theorem c10_handleAnswer_frame (st : SessionState) (label : String)
    (q : Question)
    (hq : st.questions[st.currentIndex]? = some q) :
    (handleAnswer st label).map SessionState.questions =
      Except.ok st.questions ∧
    (handleAnswer st label).map SessionState.currentIndex =
      Except.ok st.currentIndex ∧
    (handleAnswer st label).map SessionState.startTime =
      Except.ok st.startTime ∧
    (handleAnswer st label).map SessionState.username =
      Except.ok st.username ∧
    (handleAnswer st label).map (fun a => a.breakdown.length) =
      Except.ok (st.breakdown.length + 1) ∧
    (handleAnswer st label).map (fun a => a.breakdown.take st.breakdown.length) =
      Except.ok st.breakdown ∧
    (handleAnswer st label).map SessionState.score =
      Except.ok (st.score + (if label == q.correct_label then 1 else 0)) := by
  rw [handleAnswer_eq st q label hq]
  refine ⟨rfl, rfl, rfl, rfl, by simp [Except.map], ?_, rfl⟩
  simp only [Except.map]
  rw [List.take_left]

/-- C10 witness: the frame conditions at the first demo question,
answered with the wrong label "b". -/
theorem c10_witness :
    (run demoStartEvents).st.questions[(run demoStartEvents).st.currentIndex]? =
      some demoQ1 ∧
    ((handleAnswer (run demoStartEvents).st "b").map SessionState.questions =
        Except.ok (run demoStartEvents).st.questions ∧
      (handleAnswer (run demoStartEvents).st "b").map SessionState.currentIndex =
        Except.ok (run demoStartEvents).st.currentIndex ∧
      (handleAnswer (run demoStartEvents).st "b").map SessionState.startTime =
        Except.ok (run demoStartEvents).st.startTime ∧
      (handleAnswer (run demoStartEvents).st "b").map SessionState.username =
        Except.ok (run demoStartEvents).st.username ∧
      (handleAnswer (run demoStartEvents).st "b").map (fun a => a.breakdown.length) =
        Except.ok ((run demoStartEvents).st.breakdown.length + 1) ∧
      (handleAnswer (run demoStartEvents).st "b").map
          (fun a => a.breakdown.take (run demoStartEvents).st.breakdown.length) =
        Except.ok (run demoStartEvents).st.breakdown ∧
      (handleAnswer (run demoStartEvents).st "b").map SessionState.score =
        Except.ok ((run demoStartEvents).st.score +
          (if "b" == demoQ1.correct_label then 1 else 0))) :=
  ⟨by decide, c10_handleAnswer_frame (run demoStartEvents).st "b" demoQ1 (by decide)⟩

/-- C6: with zero questions `finishQuiz` completes without throwing — the
JavaScript division produces `NaN` (or `Infinity` were the score
nonzero) and `toFixed` renders it; no exception is raised. -/
theorem c6_finish_total_zero_safe (st : SessionState) (endTime : Int)
    (h : st.questions.length = 0) :
    (finishQuiz st endTime).percentNum =
      (if st.score = 0 then JsNum.nan else JsNum.inf) ∧
    (finishQuiz st endTime).percentText =
      (if st.score = 0 then "NaN" else "Infinity") := by
  unfold finishQuiz jsDivNat
  rw [h]
  by_cases hs : st.score = 0
  · simp [hs, jsMul100, jsToFixed1]
  · simp [hs, jsMul100, jsToFixed1]

/-- C6 witness: the zero-question, zero-score state. -/
theorem c6_witness :
    initState.questions.length = 0 ∧
    ((finishQuiz initState 42).percentNum =
        (if initState.score = 0 then JsNum.nan else JsNum.inf) ∧
      (finishQuiz initState 42).percentText =
        (if initState.score = 0 then "NaN" else "Infinity")) :=
  ⟨rfl, c6_finish_total_zero_safe initState 42 rfl⟩

/-- C1 counterexample: in the reachable Active session of the demo run,
"z" is not among the current question's option labels, yet
`handleAnswer` (the code behind `submitAnswer`) appends an AnswerRecord
— the claim's "no AnswerRecord is appended" is false for the handler. -/
theorem c1_counterexample :
    (run demoStartEvents).phase = Phase.Active ∧
    (currentOptionLabels (run demoStartEvents).st).contains "z" = false ∧
    (run demoStartEvents).st.breakdown.length = 0 ∧
    (handleAnswer (run demoStartEvents).st "z").map
      (fun a => a.breakdown.length) = Except.ok 1 := by
  decide

/-- C1 amended: an answer click with a label not among the current
question's options does nothing only because `showQuestion` created no
button carrying it; the handler itself performs no validation and, if
invoked with such a label, appends an AnswerRecord for it (correct
exactly when the label equals `correct_label`). -/
theorem c1_no_validation (s : Session) (label : String) (q : Question)
    (hact : s.phase = Phase.Active)
    (hq : s.st.questions[s.st.currentIndex]? = some q)
    (hnot : label ∉ q.options.map QOption.label) :
    step s (Event.answer label) = s ∧
    handleAnswer s.st label = Except.ok
      { s.st with breakdown := s.st.breakdown ++ [mkAnswerRecord q label],
                  score := s.st.score +
                    (if label == q.correct_label then 1 else 0) } := by
  constructor
  · obtain ⟨ph, st, ie, am, su⟩ := s
    simp only at hact hq
    subst hact
    have hcl : currentOptionLabels st = q.options.map QOption.label := by
      unfold currentOptionLabels
      rw [hq]
      rfl
    show (if (currentOptionLabels st).contains label then _ else _) = _
    rw [hcl, if_neg (by simpa using hnot)]
  · exact handleAnswer_eq s.st q label hq

/-- C1 witness: the amended behaviour at the demo session and label "z". -/
theorem c1_witness :
    (run demoStartEvents).phase = Phase.Active ∧
    (run demoStartEvents).st.questions[(run demoStartEvents).st.currentIndex]? =
      some demoQ1 ∧
    "z" ∉ demoQ1.options.map QOption.label ∧
    (step (run demoStartEvents) (Event.answer "z") = run demoStartEvents ∧
      handleAnswer (run demoStartEvents).st "z" = Except.ok
        { (run demoStartEvents).st with
            breakdown := (run demoStartEvents).st.breakdown ++
              [mkAnswerRecord demoQ1 "z"],
            score := (run demoStartEvents).st.score +
              (if "z" == demoQ1.correct_label then 1 else 0) }) :=
  ⟨by decide, by decide, by decide,
    c1_no_validation (run demoStartEvents) "z" demoQ1
      (by decide) (by decide) (by decide)⟩

/-- C4 counterexample: after a failed attempt by "alice" the session is
Idle with `username = "alice"`; a start click with a blank name is
rejected with the validation message, yet `username` has been overwritten
with the empty string — the claim's "no change to any part of
SessionState, including the stored username field" is false. -/
theorem c4_counterexample :
    (run c4PriorEvents).phase = Phase.Idle ∧
    (run c4PriorEvents).st.username = "alice" ∧
    jsTrim "   " = "" ∧
    (step (run c4PriorEvents)
      (Event.start "   " (Except.error "down") 5)).introError =
      "Please enter your name to start." ∧
    (step (run c4PriorEvents)
      (Event.start "   " (Except.error "down") 5)).st.username = "" := by
  decide

/-- C4 amended: a start click whose trimmed input is empty is rejected
with the validation message and leaves questions, currentIndex, score,
breakdown and startTime untouched — but it overwrites the stored
`username` with the trimmed (empty) input, because the handler assigns
the global before the emptiness check. -/
theorem c4_validation_error (s : Session) (input : String)
    (resp : Except String ProviderResponse) (now : Int)
    (hIdle : s.phase = Phase.Idle) (hu : jsTrim input = "") :
    (step s (Event.start input resp now)).phase = Phase.Idle ∧
    coreUnchanged (step s (Event.start input resp now)).st s.st ∧
    (step s (Event.start input resp now)).introError =
      "Please enter your name to start." ∧
    (step s (Event.start input resp now)).alertMsg = none ∧
    (step s (Event.start input resp now)).st.username = "" := by
  obtain ⟨ph, st, ie, am, su⟩ := s
  simp only at hIdle
  subst hIdle
  have hred : step ⟨Phase.Idle, st, ie, am, su⟩ (Event.start input resp now) =
      ⟨Phase.Idle, { st with username := jsTrim input },
        "Please enter your name to start.", none, su⟩ := by
    show startClick ⟨Phase.Idle, st, ie, none, su⟩ input resp now = _
    unfold startClick
    simp only [hu, if_pos]
  rw [hred]
  exact ⟨rfl, ⟨rfl, rfl, rfl, rfl, rfl⟩, rfl, rfl, hu⟩

/-- C4 witness: the amended statement at the "alice"-then-blank run. -/
theorem c4_witness :
    (run c4PriorEvents).phase = Phase.Idle ∧
    jsTrim "   " = "" ∧
    ((step (run c4PriorEvents)
        (Event.start "   " (Except.error "down") 5)).phase = Phase.Idle ∧
      coreUnchanged
        (step (run c4PriorEvents)
          (Event.start "   " (Except.error "down") 5)).st
        (run c4PriorEvents).st ∧
      (step (run c4PriorEvents)
        (Event.start "   " (Except.error "down") 5)).introError =
        "Please enter your name to start." ∧
      (step (run c4PriorEvents)
        (Event.start "   " (Except.error "down") 5)).alertMsg = none ∧
      (step (run c4PriorEvents)
        (Event.start "   " (Except.error "down") 5)).st.username = "") :=
  ⟨by decide, by decide,
    c4_validation_error (run c4PriorEvents) "   " (Except.error "down") 5
      (by decide) (by decide)⟩

/-- C5 (code bug): a successful load of an empty question list never
reaches Finished.  `showQuestion` throws a TypeError reading the
undefined first question, `loadQuestions`' catch alerts it as a load
error, and the session is stranded on the quiz screen with no summary —
the spec's "immediate Finished with total = 0" does not happen. -/
theorem c5_empty_questions_crash :
    (run c5Events).phase = Phase.Crashed ∧
    (run c5Events).phase ≠ Phase.Finished ∧
    (run c5Events).summary = none ∧
    (run c5Events).alertMsg = some
      ("Error loading questions: " ++
        "TypeError: cannot read question of undefined") ∧
    (run c5Events).st.questions = [] := by
  decide

/-- C7: in state Answered, a next click either advances to the next
question — `currentIndex` grows by exactly one, everything else is
untouched, and the session is Active again — or, at the last index,
transitions to Finished with the summary produced by `finishQuiz`. -/
theorem c7_advance (s : Session) (now : Int)
    (hph : s.phase = Phase.Answered)
    (hlt : s.st.currentIndex < s.st.questions.length) :
    (s.st.currentIndex + 1 < s.st.questions.length →
      (step s (Event.next now)).phase = Phase.Active ∧
      (step s (Event.next now)).st.currentIndex = s.st.currentIndex + 1 ∧
      (step s (Event.next now)).st.questions = s.st.questions ∧
      (step s (Event.next now)).st.score = s.st.score ∧
      (step s (Event.next now)).st.breakdown = s.st.breakdown ∧
      (step s (Event.next now)).st.startTime = s.st.startTime ∧
      (step s (Event.next now)).st.username = s.st.username ∧
      (step s (Event.next now)).summary = s.summary) ∧
    (s.st.currentIndex + 1 = s.st.questions.length →
      (step s (Event.next now)).phase = Phase.Finished ∧
      (step s (Event.next now)).st = s.st ∧
      (step s (Event.next now)).summary = some (finishQuiz s.st now)) := by
  obtain ⟨ph, st, ie, am, su⟩ := s
  simp only at hph hlt ⊢
  subst hph
  have hred : step ⟨Phase.Answered, st, ie, am, su⟩ (Event.next now) =
      (if (st.currentIndex : Int) < (st.questions.length : Int) - 1 then
        match showQuestion { st with currentIndex := st.currentIndex + 1 } with
        | Except.ok _ =>
            (⟨Phase.Active, { st with currentIndex := st.currentIndex + 1 },
              ie, none, su⟩ : Session)
        | Except.error _ =>
            ⟨Phase.Crashed, { st with currentIndex := st.currentIndex + 1 },
              ie, none, su⟩
      else
        ⟨Phase.Finished, st, ie, none, some (finishQuiz st now)⟩) := rfl
  constructor
  · intro hc
    have hci : (st.currentIndex : Int) < (st.questions.length : Int) - 1 := by
      omega
    obtain ⟨rq, hsq⟩ := showQuestion_ok_of_lt
      { st with currentIndex := st.currentIndex + 1 } (by simpa using hc)
    rw [hred, if_pos hci, hsq]
    exact ⟨rfl, rfl, rfl, rfl, rfl, rfl, rfl, rfl⟩
  · intro hc
    have hci : ¬ ((st.currentIndex : Int) < (st.questions.length : Int) - 1) := by
      omega
    rw [hred, if_neg hci]
    exact ⟨rfl, rfl, rfl⟩

/-- C7 witness: the Answered state after the first (wrong) answer of the
demo run, where the next click advances to question 2. -/
theorem c7_witness :
    (run (demoWrongEvents.take 2)).phase = Phase.Answered ∧
    (run (demoWrongEvents.take 2)).st.currentIndex <
      (run (demoWrongEvents.take 2)).st.questions.length ∧
    (((run (demoWrongEvents.take 2)).st.currentIndex + 1 <
        (run (demoWrongEvents.take 2)).st.questions.length →
      (step (run (demoWrongEvents.take 2)) (Event.next 2000)).phase =
        Phase.Active ∧
      (step (run (demoWrongEvents.take 2)) (Event.next 2000)).st.currentIndex =
        (run (demoWrongEvents.take 2)).st.currentIndex + 1 ∧
      (step (run (demoWrongEvents.take 2)) (Event.next 2000)).st.questions =
        (run (demoWrongEvents.take 2)).st.questions ∧
      (step (run (demoWrongEvents.take 2)) (Event.next 2000)).st.score =
        (run (demoWrongEvents.take 2)).st.score ∧
      (step (run (demoWrongEvents.take 2)) (Event.next 2000)).st.breakdown =
        (run (demoWrongEvents.take 2)).st.breakdown ∧
      (step (run (demoWrongEvents.take 2)) (Event.next 2000)).st.startTime =
        (run (demoWrongEvents.take 2)).st.startTime ∧
      (step (run (demoWrongEvents.take 2)) (Event.next 2000)).st.username =
        (run (demoWrongEvents.take 2)).st.username ∧
      (step (run (demoWrongEvents.take 2)) (Event.next 2000)).summary =
        (run (demoWrongEvents.take 2)).summary) ∧
    ((run (demoWrongEvents.take 2)).st.currentIndex + 1 =
        (run (demoWrongEvents.take 2)).st.questions.length →
      (step (run (demoWrongEvents.take 2)) (Event.next 2000)).phase =
        Phase.Finished ∧
      (step (run (demoWrongEvents.take 2)) (Event.next 2000)).st =
        (run (demoWrongEvents.take 2)).st ∧
      (step (run (demoWrongEvents.take 2)) (Event.next 2000)).summary =
        some (finishQuiz (run (demoWrongEvents.take 2)).st 2000))) :=
  ⟨by decide, by decide,
    c7_advance (run (demoWrongEvents.take 2)) 2000 (by decide) (by decide)⟩

/-- A start click in Idle with a nonempty name and a failing or malformed
response only records the alert and the (already-assigned) username. -/
theorem start_bad_resp (st : SessionState) (ie : String) (am : Option String)
    (su : Option FinishResult) (input : String)
    (resp : Except String ProviderResponse) (now : Int)
    (h1 : jsTrim input ≠ "") (hbad : isBadResp resp = true) :
    ∃ m, step ⟨Phase.Idle, st, ie, am, su⟩ (Event.start input resp now) =
      ⟨Phase.Idle, { st with username := jsTrim input }, "", some m, su⟩ := by
  show ∃ m, startClick ⟨Phase.Idle, st, ie, none, su⟩ input resp now = _
  unfold startClick
  rw [if_neg h1]
  cases resp with
  | error e1 => exact ⟨"Error loading questions: " ++ e1, rfl⟩
  | ok data =>
      have hne : data.status ≠ "ok" := by
        simpa [isBadResp] using hbad
      refine ⟨"Error loading questions: " ++
        data.message.getD "Failed to load questions", ?_⟩
      unfold loadQuestions
      dsimp only
      rw [if_pos hne]

/-- A start click in Idle with a nonempty name and a well-formed,
nonempty response resets the globals and shows the first question. -/
theorem start_good_resp (st : SessionState) (ie : String) (am : Option String)
    (su : Option FinishResult) (input : String) (d : ProviderResponse)
    (now : Int) (h1 : jsTrim input ≠ "") (hst : d.status = "ok")
    (hlen : 0 < d.questions.length) :
    step ⟨Phase.Idle, st, ie, am, su⟩ (Event.start input (Except.ok d) now) =
      ⟨Phase.Active,
        { questions := d.questions, currentIndex := 0, score := 0,
          startTime := some now, breakdown := [],
          username := jsTrim input }, "", none, su⟩ := by
  show startClick ⟨Phase.Idle, st, ie, none, su⟩ input (Except.ok d) now = _
  unfold startClick
  rw [if_neg h1]
  unfold loadQuestions
  dsimp only
  rw [if_neg (by simp [hst])]
  obtain ⟨rq, hsq⟩ := showQuestion_ok_of_lt
    { questions := d.questions, currentIndex := 0, score := 0,
      startTime := some now, breakdown := [], username := jsTrim input }
    (by simpa using hlen)
  rw [hsq]

/-- C3: a failing fetch or a malformed payload (status not "ok") during
start surfaces a load alert, leaves the session Idle with questions,
currentIndex, score, breakdown and startTime exactly as before, and a
following start with a good response still begins a fresh attempt. -/
theorem c3_load_error_retriable (s : Session)
    (input : String) (resp : Except String ProviderResponse) (now : Int)
    (input2 : String) (resp2 : Except String ProviderResponse) (now2 : Int)
    (hIdle : s.phase = Phase.Idle)
    (h1 : jsTrim input ≠ "")
    (hbad : isBadResp resp = true)
    (h2 : jsTrim input2 ≠ "")
    (hgood : isGoodNonempty resp2 = true) :
    (step s (Event.start input resp now)).phase = Phase.Idle ∧
    coreUnchanged (step s (Event.start input resp now)).st s.st ∧
    ((step s (Event.start input resp now)).alertMsg).isSome = true ∧
    (step (step s (Event.start input resp now))
        (Event.start input2 resp2 now2)).phase = Phase.Active ∧
    (step (step s (Event.start input resp now))
        (Event.start input2 resp2 now2)).st.questions = respQuestions resp2 ∧
    (step (step s (Event.start input resp now))
        (Event.start input2 resp2 now2)).st.currentIndex = 0 ∧
    (step (step s (Event.start input resp now))
        (Event.start input2 resp2 now2)).st.score = 0 ∧
    (step (step s (Event.start input resp now))
        (Event.start input2 resp2 now2)).st.breakdown = [] ∧
    (step (step s (Event.start input resp now))
        (Event.start input2 resp2 now2)).st.startTime = some now2 ∧
    (step (step s (Event.start input resp now))
        (Event.start input2 resp2 now2)).st.username = jsTrim input2 := by
  obtain ⟨ph, st, ie, am, su⟩ := s
  simp only at hIdle
  subst hIdle
  obtain ⟨d2, hd2⟩ : ∃ d2, resp2 = Except.ok d2 := by
    cases resp2 with
    | error e2 => simp [isGoodNonempty] at hgood
    | ok d2 => exact ⟨d2, rfl⟩
  subst hd2
  have hgood2 := hgood
  simp only [isGoodNonempty, Bool.and_eq_true, beq_iff_eq,
    Bool.not_eq_true'] at hgood2
  obtain ⟨hst2, hne2⟩ := hgood2
  have hlen2 : 0 < d2.questions.length := by
    cases hq2 : d2.questions with
    | nil => rw [hq2] at hne2; simp at hne2
    | cons a l => simp
  obtain ⟨m, hred1⟩ := start_bad_resp st ie am su input resp now h1 hbad
  rw [hred1]
  rw [start_good_resp { st with username := jsTrim input } "" (some m) su
    input2 d2 now2 h2 hst2 hlen2]
  exact ⟨rfl, ⟨rfl, rfl, rfl, rfl, rfl⟩, rfl, rfl, rfl, rfl, rfl, rfl, rfl, rfl⟩

/-- C3 witness: a network failure by "ann", then a successful retry by
"bob" with the demo questions. -/
theorem c3_witness :
    initSession.phase = Phase.Idle ∧
    jsTrim "ann" ≠ "" ∧
    isBadResp (Except.error "down") = true ∧
    jsTrim "bob" ≠ "" ∧
    isGoodNonempty (Except.ok demoResp) = true ∧
    ((step initSession (Event.start "ann" (Except.error "down") 7)).phase =
        Phase.Idle ∧
      coreUnchanged
        (step initSession (Event.start "ann" (Except.error "down") 7)).st
        initSession.st ∧
      ((step initSession
        (Event.start "ann" (Except.error "down") 7)).alertMsg).isSome = true ∧
      (step (step initSession (Event.start "ann" (Except.error "down") 7))
          (Event.start "bob" (Except.ok demoResp) 9)).phase = Phase.Active ∧
      (step (step initSession (Event.start "ann" (Except.error "down") 7))
          (Event.start "bob" (Except.ok demoResp) 9)).st.questions =
        respQuestions (Except.ok demoResp) ∧
      (step (step initSession (Event.start "ann" (Except.error "down") 7))
          (Event.start "bob" (Except.ok demoResp) 9)).st.currentIndex = 0 ∧
      (step (step initSession (Event.start "ann" (Except.error "down") 7))
          (Event.start "bob" (Except.ok demoResp) 9)).st.score = 0 ∧
      (step (step initSession (Event.start "ann" (Except.error "down") 7))
          (Event.start "bob" (Except.ok demoResp) 9)).st.breakdown = [] ∧
      (step (step initSession (Event.start "ann" (Except.error "down") 7))
          (Event.start "bob" (Except.ok demoResp) 9)).st.startTime = some 9 ∧
      (step (step initSession (Event.start "ann" (Except.error "down") 7))
          (Event.start "bob" (Except.ok demoResp) 9)).st.username =
        jsTrim "bob") :=
  ⟨by decide, by decide, by decide, by decide, by decide,
    c3_load_error_retriable initSession "ann" (Except.error "down") 7
      "bob" (Except.ok demoResp) 9
      (by decide) (by decide) (by decide) (by decide) (by decide)⟩

/-- C8: for a finished session with at least one question, `finishQuiz`
reports elapsed time as `(now - startTime) / 1000` rounded to whole
seconds (round-half-up, as `Math.round`), the percentage as the exact
rational `score / total * 100` rendered to one decimal place, and the
missed set as exactly the breakdown records with `correct = false`, in
their original order (a sublist of the breakdown). -/
theorem c8_finish_summary (st : SessionState) (endTime : Int)
    (h : st.questions.length ≠ 0) :
    (finishQuiz st endTime).timeTakenSec =
      Int.floor (((endTime - st.startTime.getD 0 : Int) : Rat) / 1000 + 1 / 2) ∧
    (finishQuiz st endTime).percentNum =
      JsNum.num ((st.score : Rat) / (st.questions.length : Rat) * 100) ∧
    (finishQuiz st endTime).percentText =
      ratToFixed1 ((st.score : Rat) / (st.questions.length : Rat) * 100) ∧
    (finishQuiz st endTime).missed =
      st.breakdown.filter (fun b => decide (b.correct = false)) ∧
    ((finishQuiz st endTime).missed).Sublist st.breakdown := by
  unfold finishQuiz jsRound jsDivNat
  rw [if_neg h]
  refine ⟨rfl, rfl, rfl, ?_, ?_⟩
  · exact List.filter_congr (fun b _ => by cases hb : b.correct <;> simp [hb])
  · exact List.filter_sublist st.breakdown

/-- C8 witness: the finish computation on the state of the demo run that
answered both questions wrongly ("b" then "a"), at end time 61000. -/
theorem c8_witness :
    (run demoWrongEvents).st.questions.length ≠ 0 ∧
    ((finishQuiz (run demoWrongEvents).st 61000).timeTakenSec =
        Int.floor (((61000 - (run demoWrongEvents).st.startTime.getD 0 : Int) :
          Rat) / 1000 + 1 / 2) ∧
      (finishQuiz (run demoWrongEvents).st 61000).percentNum =
        JsNum.num (((run demoWrongEvents).st.score : Rat) /
          ((run demoWrongEvents).st.questions.length : Rat) * 100) ∧
      (finishQuiz (run demoWrongEvents).st 61000).percentText =
        ratToFixed1 (((run demoWrongEvents).st.score : Rat) /
          ((run demoWrongEvents).st.questions.length : Rat) * 100) ∧
      (finishQuiz (run demoWrongEvents).st 61000).missed =
        (run demoWrongEvents).st.breakdown.filter
          (fun b => decide (b.correct = false)) ∧
      ((finishQuiz (run demoWrongEvents).st 61000).missed).Sublist
        (run demoWrongEvents).st.breakdown) :=
  ⟨by decide, c8_finish_summary (run demoWrongEvents).st 61000 (by decide)⟩
